import Mathlib

/-!
Shallow embedding of `claude-island-state.py` (the reporter hook script).

The script reads one JSON notification from stdin, classifies it into a state
record, and sends it over a Unix stream socket to the ClaudeIsland app,
waiting for a reply only for `PermissionRequest` events.

Modelling conventions:
* Filesystem / OS state observed by the script (stat results, file contents,
  current uid) is an explicit `Env` value; each `os.stat` / `open` outcome is
  an `Option` / `Except` so that a raised `OSError` is a representable value.
* The transport layer (connect / sendall / recv outcomes) is an explicit
  `Transport` script value.
* Python dictionaries are projected onto the fields the program reads;
  a key that is absent is `none`.  `data.get` with a default is `Option.getD`.
* The received reply is decoded by the model of `response.decode()` plus
  `json.loads`: the bytes can be empty, not valid UTF-8 (in which case
  `.decode()` raises `UnicodeDecodeError` — an exception that the `except`
  tuple of line 129 does NOT catch, so it propagates out of `send_event`),
  decodable but unparseable (caught `json.JSONDecodeError`), or a JSON
  value: a JSON object (projected to its `decision` / `reason` keys plus a
  flag for the presence of any other key, which matters for Python
  truthiness), or a non-object JSON value, of which only Python truthiness
  matters.
* Exceptions that escape a modelled function (only `UnicodeDecodeError`
  can) are explicit values of type `PyExc`, carried in an `Except` result
  or a `raised` field, never collapsed into the caught paths.
* Effects (connection attempts, completed sends, recv calls, explicit
  `sock.close()` executions) are counted in the result structures, so that
  frame/effect claims are statable.
* `get_tty` (lines 60-93) is OS process inspection, out of the modelled
  core; its result enters `main` as the parameter `tty`.
-/

namespace ClaudeIsland

/-- TIMEOUT_SECONDS constant of the script (line 18): 5 minutes. -/
def TIMEOUT_SECONDS : Nat := 300

/-- Result of an `os.stat` call: owner uid and full mode bits. -/
structure StatInfo where
  st_uid : Nat
  st_mode : Nat
deriving DecidableEq, Repr

/-- Model of `stat.S_ISSOCK`: the file-type bits of the mode equal `S_IFSOCK`. -/
def S_ISSOCK (m : Nat) : Bool := m &&& 0o170000 == 0o140000

/-- Whitespace characters stripped by Python `str.strip()` (ASCII range). -/
def pyIsSpace (c : Char) : Bool :=
  c = ' ' || c = '\t' || c = '\n' || c = '\r' || c = '\x0b' || c = '\x0c'

/-- Model of Python `str.strip()`: drop whitespace from both ends. -/
def pyStrip (s : String) : String :=
  String.mk (((s.toList.dropWhile pyIsSpace).reverse.dropWhile pyIsSpace).reverse)

/-- Python truthiness of an optional string (`None` and `""` are falsy). -/
def truthyStr (o : Option String) : Bool :=
  match o with
  | none => false
  | some s => s ≠ ""

/-- An exception class that escapes a modelled function.  Only
`UnicodeDecodeError` can: it is a `ValueError`, so neither
`except (OSError, IOError)` in `read_auth_token` nor
`except (socket.error, OSError, json.JSONDecodeError)` in `send_event`
catches it. -/
inductive PyExc where
  | unicodeDecodeError
deriving DecidableEq, Repr

/-- Outcome of the text-mode `open(TOKEN_PATH).read()` of lines 54-55:
an `OSError`/`IOError` (caught by the handler of line 56), a byte content
that is not valid UTF-8 (text-mode read raises `UnicodeDecodeError`,
caught by nothing in the script), or a decoded string. -/
inductive ReadOutcome where
  | osError
  | undecodable
  | content (s : String)
deriving DecidableEq, Repr

/-- Observable OS state of one invocation: current uid, and the outcomes of
the filesystem operations on `SOCKET_PATH` and `TOKEN_PATH`.
`sockStat = Except.error e` models `os.stat` raising `OSError` whose string
is `e`; `tokenStat = none` models `os.stat(TOKEN_PATH)` raising. -/
structure Env where
  uid : Nat
  sockExists : Bool
  sockStat : Except String StatInfo
  tokenExists : Bool
  tokenStat : Option StatInfo
  tokenRead : ReadOutcome
deriving Repr

/-- Embedding of `verify_socket_security` (lines 21-39): socket must exist,
be owned by the current uid, and be a socket; any `OSError` is caught and
returned as a reason.  Returns `(ok, reason)`. -/
def verify_socket_security (env : Env) : Bool × Option String :=
  if !env.sockExists then
    (false, some "Socket does not exist")
  else
    match env.sockStat with
    | Except.error e => (false, some e)
    | Except.ok sock_stat =>
      if sock_stat.st_uid ≠ env.uid then
        (false, some ("Socket owned by uid " ++ toString sock_stat.st_uid
          ++ ", expected " ++ toString env.uid))
      else if !S_ISSOCK sock_stat.st_mode then
        (false, some "Path is not a socket")
      else
        (true, none)

/-- The read-and-strip of lines 54-55, on the file-content outcome:
an `OSError`/`IOError` is caught by line 56 and yields `None`; invalid
UTF-8 makes the text-mode read raise `UnicodeDecodeError`, which no
handler in the script catches; a decoded string is stripped and
returned. -/
def readTokenFile : ReadOutcome → Except PyExc (Option String)
  | ReadOutcome.osError => Except.ok none
  | ReadOutcome.undecodable => Except.error PyExc.unicodeDecodeError
  | ReadOutcome.content s => Except.ok (some (pyStrip s))

/-- Embedding of `read_auth_token` (lines 42-57): if the token file exists,
reject it unless owned by the current uid with no group/other permission
bits (early `return None`, before any read); then read and strip it.
A raised `OSError`/`IOError` (stat or read) is caught and yields `none`;
a `UnicodeDecodeError` from the text-mode read propagates to the caller
(`Except.error`). -/
def read_auth_token (env : Env) : Except PyExc (Option String) :=
  if env.tokenExists then
    match env.tokenStat with
    | none => Except.ok none
    | some token_stat =>
      if token_stat.st_uid ≠ env.uid then
        Except.ok none
      else if token_stat.st_mode &&& 0o077 ≠ 0 then
        Except.ok none
      else
        readTokenFile env.tokenRead
  else
    readTokenFile env.tokenRead

/-- Python truthiness check `if not auth_token` at line 107 on the outcome
of the `read_auth_token()` call: a returned `None` or empty string is
falsy; a raising call never reaches the test at all. -/
def tokenOk (t : Except PyExc (Option String)) : Bool :=
  match t with
  | Except.ok v => truthyStr v
  | Except.error _ => false

/-- A decoded reply value (`json.loads` of the received bytes).  A JSON
object is projected to its `decision` and `reason` string values (`none`
when the key is absent or bound to `null`) plus a flag recording whether any
other key is present (for dict truthiness); any non-object JSON value is
kept only as its Python truthiness. -/
inductive PyJson where
  | obj (decision : Option String) (reason : Option String) (extraKeys : Bool)
  | nonObj (truthy : Bool)
deriving DecidableEq, Repr

/-- The bytes returned by a successful `sock.recv(4096)`: empty (falsy at
line 123, so never decoded), non-empty but not valid UTF-8 (`.decode()`
raises `UnicodeDecodeError`), valid UTF-8 but not JSON (`json.loads`
raises the caught `JSONDecodeError`), or a JSON value. -/
inductive ReplyBytes where
  | empty
  | undecodable
  | invalid
  | json (v : PyJson)
deriving DecidableEq, Repr

/-- Outcome of the `recv` stage, when the transport reaches it. -/
inductive RecvOutcome where
  | err
  | bytes (b : ReplyBytes)
deriving DecidableEq, Repr

/-- Script of the transport layer for one invocation: either `connect`
raises, or `sendall` raises, or both complete and `recvOutcome` is what a
`recv` would observe (consulted only when the event awaits a reply). -/
inductive Transport where
  | connectFail
  | sendFail
  | ok (recvOutcome : RecvOutcome)
deriving DecidableEq, Repr

/-- The normalized state record that `main` builds (lines 149-155 and the
per-event branches).  Conditionally-set keys are `Option`; keys whose value
can itself be JSON `null` are `Option (Option String)` (outer layer = key
present).  `tool_input` carries the serialized payload, which the script
never inspects. -/
structure StateRec where
  session_id : String
  cwd : String
  event : String
  pid : Nat
  tty : Option String
  status : Option String
  tool : Option (Option String)
  tool_input : Option String
  tool_use_id : Option String
  notification_type : Option (Option String)
  message : Option (Option String)
deriving DecidableEq, Repr

/-- Result of `send_event`, with its observable effects: the returned value,
the exception propagating out of `send_event` if any (`raised`, in which
case no value is returned), the number of `connect` attempts, whether a
connection was opened (`connect` succeeded), the number of completed
`sendall` calls, the number of `recv` calls, and the number of executed
`sock.close()` calls. -/
structure SendResult where
  response : Option PyJson
  raised : Option PyExc
  connectCount : Nat
  connected : Bool
  sendCount : Nat
  recvCount : Nat
  closeCount : Nat
deriving DecidableEq, Repr

/-- The result of `send_event` when it returns before creating a socket. -/
def noAttempt : SendResult :=
  { response := none, raised := none, connectCount := 0, connected := false,
    sendCount := 0, recvCount := 0, closeCount := 0 }

/-- Embedding of `send_event` (lines 96-130).  Security gates first (socket
verification, then the token read — whose `UnicodeDecodeError`, if any,
passes through the line-129 `except (socket.error, OSError,
json.JSONDecodeError)` uncaught, before any socket exists); a falsy token
returns `None` with no socket created.  Then connect, send the record
(with the token attached — the `state["_auth_token"]` mutation is not
otherwise observable), and only for `status == "waiting_for_approval"`
call `recv` once; the socket is closed explicitly only after a successful
`recv` (line 122, before the decode of line 124) or on the fire-and-forget
path (line 126).  `socket.error`/`OSError`/`json.JSONDecodeError` are
caught and yield `None`; a `UnicodeDecodeError` from `response.decode()`
propagates (`raised`), with the close of line 122 already done. -/
def send_event (env : Env) (tr : Transport) (state : StateRec) : SendResult :=
  if !(verify_socket_security env).1 then
    noAttempt
  else
    match read_auth_token env with
    | Except.error e => { noAttempt with raised := some e }
    | Except.ok auth_token =>
      if !truthyStr auth_token then
        noAttempt
      else
        match tr with
        | Transport.connectFail =>
          { response := none, raised := none, connectCount := 1,
            connected := false, sendCount := 0, recvCount := 0,
            closeCount := 0 }
        | Transport.sendFail =>
          { response := none, raised := none, connectCount := 1,
            connected := true, sendCount := 0, recvCount := 0,
            closeCount := 0 }
        | Transport.ok ro =>
          if state.status = some "waiting_for_approval" then
            match ro with
            | RecvOutcome.err =>
              { response := none, raised := none, connectCount := 1,
                connected := true, sendCount := 1, recvCount := 1,
                closeCount := 0 }
            | RecvOutcome.bytes ReplyBytes.empty =>
              { response := none, raised := none, connectCount := 1,
                connected := true, sendCount := 1, recvCount := 1,
                closeCount := 1 }
            | RecvOutcome.bytes ReplyBytes.undecodable =>
              { response := none, raised := some PyExc.unicodeDecodeError,
                connectCount := 1, connected := true, sendCount := 1,
                recvCount := 1, closeCount := 1 }
            | RecvOutcome.bytes ReplyBytes.invalid =>
              { response := none, raised := none, connectCount := 1,
                connected := true, sendCount := 1, recvCount := 1,
                closeCount := 1 }
            | RecvOutcome.bytes (ReplyBytes.json v) =>
              { response := some v, raised := none, connectCount := 1,
                connected := true, sendCount := 1, recvCount := 1,
                closeCount := 1 }
          else
            { response := none, raised := none, connectCount := 1,
              connected := true, sendCount := 1, recvCount := 0,
              closeCount := 1 }

/-- Projection of the JSON object read from stdin onto the keys the script
reads (`data.get` calls).  `none` means the key is absent (a key bound to
JSON `null` behaves the same for every read the script performs). -/
structure HookData where
  session_id : Option String
  hook_event_name : Option String
  cwd : Option String
  tool_name : Option String
  tool_input : Option String
  tool_use_id : Option String
  notification_type : Option String
  message : Option String
deriving DecidableEq, Repr

/-- A control directive printed on stdout for a `PermissionRequest`: either
`{behavior: allow}` with no message key, or `{behavior: deny, message}`
(lines 196-216). -/
inductive CtrlOutput where
  | allow
  | deny (message : String)
deriving DecidableEq, Repr

/-- Outcome of the decision-handling block of `main` (lines 190-220):
either it prints the given directive (if any) and exits 0, or it raises an
uncaught `AttributeError` because a truthy non-dict reply has no `.get`. -/
inductive RenderResult where
  | out (o : Option CtrlOutput)
  | crash
deriving DecidableEq, Repr

/-- Python truthiness of the reply dict (line 190 `if response:`):
a dict is truthy iff it has at least one key. -/
def pyDictTruthy (decision reason : Option String) (extraKeys : Bool) : Bool :=
  decision.isSome || reason.isSome || extraKeys

/-- Embedding of the decision handling of `main` (lines 190-220): on a
truthy dict reply, `decision = response.get("decision", "ask")` and
`reason = response.get("reason", "")`; `allow` prints the allow directive,
`deny` prints the deny directive whose message is `reason or
"Denied by user via ClaudeIsland"`; anything else (including `ask`), a
falsy reply, or no reply prints nothing.  A truthy non-dict reply makes
`response.get` raise `AttributeError`, uncaught in `main`. -/
def render (response : Option PyJson) : RenderResult :=
  match response with
  | none => RenderResult.out none
  | some (PyJson.nonObj truthy) =>
    if truthy then RenderResult.crash else RenderResult.out none
  | some (PyJson.obj dec rsn extra) =>
    if pyDictTruthy dec rsn extra then
      let decision := dec.getD "ask"
      let reason := rsn.getD ""
      if decision = "allow" then
        RenderResult.out (some CtrlOutput.allow)
      else if decision = "deny" then
        RenderResult.out (some (CtrlOutput.deny
          (if reason = "" then "Denied by user via ClaudeIsland" else reason)))
      else
        RenderResult.out none
    else
      RenderResult.out none

/-- The state object built at lines 149-155, before the per-event branches:
`session_id`, `cwd` and `event` defaulted per the `data.get` calls of lines
139-141, `pid` is the parent pid, `tty` the result of `get_tty`. -/
def baseState (data : HookData) (tty : Option String) (ppid : Nat) : StateRec :=
  { session_id := data.session_id.getD "unknown"
    cwd := data.cwd.getD ""
    event := data.hook_event_name.getD ""
    pid := ppid
    tty := tty
    status := none
    tool := none
    tool_input := none
    tool_use_id := none
    notification_type := none
    message := none }

/-- The state sent for a `PermissionRequest` event (lines 180-185). -/
def permissionState (data : HookData) (tty : Option String) (ppid : Nat) :
    StateRec :=
  { baseState data tty ppid with
    status := some "waiting_for_approval"
    tool := some data.tool_name
    tool_input := some (data.tool_input.getD "\x7b\x7d") }

/-- The state sent for `PreToolUse` / `PostToolUse` (lines 162-178);
`tool_use_id` is set only when the incoming value is truthy. -/
def toolState (data : HookData) (tty : Option String) (ppid : Nat)
    (status : String) : StateRec :=
  { baseState data tty ppid with
    status := some status
    tool := some data.tool_name
    tool_input := some (data.tool_input.getD "\x7b\x7d")
    tool_use_id := if truthyStr data.tool_use_id then data.tool_use_id else none }

/-- The state sent for a non-suppressed `Notification` (lines 227-232). -/
def notificationState (data : HookData) (tty : Option String) (ppid : Nat) :
    StateRec :=
  { baseState data tty ppid with
    status := some (if data.notification_type = some "idle_prompt" then
      "waiting_for_input" else "notification")
    notification_type := some data.notification_type
    message := some data.message }

/-- Observable outcome of one `main` invocation: exit code (an uncaught
exception — `AttributeError` in `main` itself or a `UnicodeDecodeError`
propagating out of `send_event` — exits 1 with `crashed = true`), the
directive printed on stdout (if any), the state record passed to
`send_event` (if it was called), and the effects of that call. -/
structure MainOutcome where
  exitCode : Nat
  crashed : Bool
  stdout : Option CtrlOutput
  sentState : Option StateRec
  sendEff : Option SendResult
deriving DecidableEq, Repr

/-- Outcome of the fall-through send at line 256 (fire-and-forget events):
nothing is printed; an exception propagating out of `send_event` is
uncaught in `main` and crashes the process. -/
def fireAndForget (env : Env) (tr : Transport) (st : StateRec) : MainOutcome :=
  let sr := send_event env tr st
  { exitCode := if sr.raised.isSome then 1 else 0,
    crashed := sr.raised.isSome, stdout := none,
    sentState := some st, sendEff := some sr }

/-- Embedding of `main` (lines 133-256).  `stdin = none` models
`json.load(sys.stdin)` failing to produce a JSON object (exit 1, nothing
else happens).  Otherwise the event name selects a branch: the
`PermissionRequest` branch sends and renders the reply; a `Notification`
with subtype `permission_prompt` exits 0 before any send; every other
branch sets a status (catch-all `"unknown"`) and falls through to the
fire-and-forget send.  An exception propagating out of `send_event` is
uncaught in `main` on every branch that sends. -/
def main (stdin : Option HookData) (env : Env) (tr : Transport)
    (tty : Option String) (ppid : Nat) : MainOutcome :=
  match stdin with
  | none =>
    { exitCode := 1, crashed := false, stdout := none,
      sentState := none, sendEff := none }
  | some data =>
    let event := data.hook_event_name.getD ""
    let base := baseState data tty ppid
    if event = "UserPromptSubmit" then
      fireAndForget env tr { base with status := some "processing" }
    else if event = "PreToolUse" then
      fireAndForget env tr (toolState data tty ppid "running_tool")
    else if event = "PostToolUse" then
      fireAndForget env tr (toolState data tty ppid "processing")
    else if event = "PermissionRequest" then
      let st := permissionState data tty ppid
      let sr := send_event env tr st
      if sr.raised.isSome then
        { exitCode := 1, crashed := true, stdout := none,
          sentState := some st, sendEff := some sr }
      else
        match render sr.response with
        | RenderResult.out o =>
          { exitCode := 0, crashed := false, stdout := o,
            sentState := some st, sendEff := some sr }
        | RenderResult.crash =>
          { exitCode := 1, crashed := true, stdout := none,
            sentState := some st, sendEff := some sr }
    else if event = "Notification" then
      if data.notification_type = some "permission_prompt" then
        { exitCode := 0, crashed := false, stdout := none,
          sentState := none, sendEff := none }
      else
        fireAndForget env tr (notificationState data tty ppid)
    else if event = "Stop" then
      fireAndForget env tr { base with status := some "waiting_for_input" }
    else if event = "SubagentStop" then
      fireAndForget env tr { base with status := some "waiting_for_input" }
    else if event = "SessionStart" then
      fireAndForget env tr { base with status := some "waiting_for_input" }
    else if event = "SessionEnd" then
      fireAndForget env tr { base with status := some "ended" }
    else if event = "PreCompact" then
      fireAndForget env tr { base with status := some "compacting" }
    else
      fireAndForget env tr { base with status := some "unknown" }

/-- The event names `main` recognizes with a dedicated branch. -/
def knownEvents : List String :=
  ["UserPromptSubmit", "PreToolUse", "PostToolUse", "PermissionRequest",
   "Notification", "Stop", "SubagentStop", "SessionStart", "SessionEnd",
   "PreCompact"]

/-! Concrete fixtures used by witnesses and counterexamples. -/

/-- An environment where every security check passes: socket present, owned
by the current uid, of socket type; token file present, owned, mode 0600,
with non-empty content. -/
def envGood : Env :=
  { uid := 501, sockExists := true,
    sockStat := Except.ok { st_uid := 501, st_mode := 0o140755 },
    tokenExists := true,
    tokenStat := some { st_uid := 501, st_mode := 0o100600 },
    tokenRead := ReadOutcome.content "secret-token" }

/-- An environment where the socket path does not exist (authority not
running). -/
def envNoSock : Env :=
  { uid := 501, sockExists := false,
    sockStat := Except.error "No such file or directory",
    tokenExists := false, tokenStat := none,
    tokenRead := ReadOutcome.osError }

/-- Stdin payload `{"hook_event_name": "PermissionRequest"}`. -/
def permReqData : HookData :=
  { session_id := none, hook_event_name := some "PermissionRequest",
    cwd := none, tool_name := none, tool_input := none, tool_use_id := none,
    notification_type := none, message := none }

/-- Stdin payload
`{"hook_event_name": "Notification", "notification_type": "permission_prompt"}`. -/
def suppressedData : HookData :=
  { session_id := none, hook_event_name := some "Notification",
    cwd := none, tool_name := none, tool_input := none, tool_use_id := none,
    notification_type := some "permission_prompt", message := none }

/-- Stdin payload with an event name `main` does not recognize. -/
def bogusData : HookData :=
  { session_id := none, hook_event_name := some "SomethingElse",
    cwd := none, tool_name := none, tool_input := none, tool_use_id := none,
    notification_type := none, message := none }

/-- An environment whose token file is group/other-readable (mode 0644)
but otherwise valid. -/
def envBadTokenMode : Env :=
  { uid := 501, sockExists := true,
    sockStat := Except.ok { st_uid := 501, st_mode := 0o140755 },
    tokenExists := true,
    tokenStat := some { st_uid := 501, st_mode := 0o100644 },
    tokenRead := ReadOutcome.content "secret-token" }

/-- An environment whose token file is safe (owned, mode 0600) but holds
only whitespace. -/
def envSpaceToken : Env :=
  { uid := 501, sockExists := true,
    sockStat := Except.ok { st_uid := 501, st_mode := 0o140755 },
    tokenExists := true,
    tokenStat := some { st_uid := 501, st_mode := 0o100600 },
    tokenRead := ReadOutcome.content "  \n" }

/-- An environment whose token file is safe (owned, mode 0600) but whose
bytes are not valid UTF-8 (e.g. a single 0xff byte). -/
def envUndecodableToken : Env :=
  { uid := 501, sockExists := true,
    sockStat := Except.ok { st_uid := 501, st_mode := 0o140755 },
    tokenExists := true,
    tokenStat := some { st_uid := 501, st_mode := 0o100600 },
    tokenRead := ReadOutcome.undecodable }

/-- Stdin payload `{"hook_event_name": "SessionStart"}`. -/
def sessionStartData : HookData :=
  { session_id := none, hook_event_name := some "SessionStart",
    cwd := none, tool_name := none, tool_input := none, tool_use_id := none,
    notification_type := none, message := none }

/-! Theorems. -/

/-- Stripping a string made only of whitespace yields the empty string. -/
theorem pyStrip_all_space (s : String) (h : s.toList.all pyIsSpace = true) :
    pyStrip s = "" := by
  have h1 : s.toList.dropWhile pyIsSpace = [] :=
    List.dropWhile_eq_nil_iff.mpr (fun c hc => List.all_eq_true.mp h c hc)
  unfold pyStrip
  rw [h1]
  rfl

/-- C6: `verify_socket_security` returns ok exactly when the path exists,
`os.stat` succeeds, the owner uid equals the current uid, and the mode is
of socket type; each failure (checked in the order: existence, stat error,
ownership, kind) yields not-ok with a diagnostic reason, and a reason is
present on every not-ok result — the caught `OSError` case included, so
nothing is ever raised to the caller. -/
theorem verify_socket_security_spec (env : Env) :
    ((verify_socket_security env).1 = true ↔
      (env.sockExists = true ∧ ∃ st, env.sockStat = Except.ok st ∧
        st.st_uid = env.uid ∧ S_ISSOCK st.st_mode = true))
    ∧ (env.sockExists = false →
        verify_socket_security env = (false, some "Socket does not exist"))
    ∧ (∀ e, env.sockExists = true → env.sockStat = Except.error e →
        verify_socket_security env = (false, some e))
    ∧ (∀ st, env.sockExists = true → env.sockStat = Except.ok st →
        st.st_uid ≠ env.uid →
        verify_socket_security env = (false, some ("Socket owned by uid "
          ++ toString st.st_uid ++ ", expected " ++ toString env.uid)))
    ∧ (∀ st, env.sockExists = true → env.sockStat = Except.ok st →
        st.st_uid = env.uid → S_ISSOCK st.st_mode = false →
        verify_socket_security env = (false, some "Path is not a socket"))
    ∧ ((verify_socket_security env).1 = false →
        (verify_socket_security env).2.isSome = true) := by
  obtain ⟨uid, se, ss, te, ts, trd⟩ := env
  cases se with
  | false => simp [verify_socket_security]
  | true =>
    cases ss with
    | error e => simp [verify_socket_security]
    | ok st =>
      by_cases hu : st.st_uid = uid
      · by_cases hm : S_ISSOCK st.st_mode
        · simp [verify_socket_security, hu, hm]
        · simp [verify_socket_security, hu, hm]
      · simp [verify_socket_security, hu]

/-- Witness for C6: in `envGood` all three checks hold, so verification
succeeds. -/
theorem verify_socket_security_spec_witness :
    (verify_socket_security envGood).1 = true :=
  (verify_socket_security_spec envGood).1.mpr
    ⟨rfl, { st_uid := 501, st_mode := 0o140755 }, rfl, rfl, by decide⟩

/-- Evaluation of the code at C5's failing input: a token file owned by
the current user with mode 0600 whose bytes are not valid UTF-8 makes the
text-mode read of line 54 raise `UnicodeDecodeError`, which
`except (OSError, IOError)` does not catch; the exception then passes
through the `except` tuple of `send_event` as well and reaches `main`, so
an error IS propagated to the caller and the process crashes even on a
fire-and-forget event.  The remaining halves of the claim do hold and are
proved alongside: owner mismatch or any group/other permission bit
(checked before any read, hence regardless of content), a raising
`os.stat`, and an `OSError`/`IOError` during the read all yield absent. -/
theorem read_auth_token_raises_on_undecodable :
    read_auth_token envUndecodableToken =
      Except.error PyExc.unicodeDecodeError
    ∧ (send_event envUndecodableToken (Transport.ok RecvOutcome.err)
        (permissionState permReqData none 1)).raised =
      some PyExc.unicodeDecodeError
    ∧ (main (some sessionStartData) envUndecodableToken
        (Transport.ok RecvOutcome.err) none 1).crashed = true
    ∧ (main (some sessionStartData) envUndecodableToken
        (Transport.ok RecvOutcome.err) none 1).exitCode = 1
    ∧ read_auth_token envBadTokenMode = Except.ok none
    ∧ (∀ env : Env,
        (∀ st, env.tokenExists = true → env.tokenStat = some st →
          st.st_uid ≠ env.uid → read_auth_token env = Except.ok none)
        ∧ (∀ st, env.tokenExists = true → env.tokenStat = some st →
          st.st_mode &&& 0o077 ≠ 0 → read_auth_token env = Except.ok none)
        ∧ (env.tokenExists = true → env.tokenStat = none →
          read_auth_token env = Except.ok none)
        ∧ (env.tokenRead = ReadOutcome.osError →
          read_auth_token env = Except.ok none)) := by
  refine ⟨rfl, by decide, by decide, by decide, rfl,
    fun env => ?_⟩
  obtain ⟨uid, se, ss, te, ts, trd⟩ := env
  refine ⟨?_, ?_, ?_, ?_⟩
  · rintro st rfl rfl hu
    simp [read_auth_token, hu]
  · rintro st rfl rfl hm
    by_cases hu : st.st_uid = uid
    · simp [read_auth_token, hu, hm]
    · simp [read_auth_token, hu]
  · rintro rfl rfl
    simp [read_auth_token]
  · rintro rfl
    cases te with
    | false => simp [read_auth_token, readTokenFile]
    | true =>
      cases ts with
      | none => simp [read_auth_token]
      | some st =>
        by_cases hu : st.st_uid = uid
        · by_cases hm : st.st_mode &&& 0o077 = 0
          · simp [read_auth_token, hu, hm, readTokenFile]
          · simp [read_auth_token, hu, hm]
        · simp [read_auth_token, hu]

/-- C10: a safe token file whose content is empty or all whitespace reads
as `some ""` (the strip of its content), which `send_event`'s Python
truthiness test `if not auth_token` treats exactly like an absent token:
it returns `None` with no socket created. -/
theorem whitespace_token_is_absent (env : Env) (tr : Transport)
    (st : StateRec) (tstat : StatInfo) (s : String)
    (hex : env.tokenExists = true) (hstat : env.tokenStat = some tstat)
    (huid : tstat.st_uid = env.uid) (hmode : tstat.st_mode &&& 0o077 = 0)
    (hread : env.tokenRead = ReadOutcome.content s)
    (hws : s.toList.all pyIsSpace = true) :
    read_auth_token env = Except.ok (some "") ∧
    send_event env tr st = noAttempt := by
  have h1 : read_auth_token env = Except.ok (some "") := by
    simp [read_auth_token, readTokenFile, hex, hstat, huid, hmode, hread,
      pyStrip_all_space s hws]
  refine ⟨h1, ?_⟩
  cases hv : (verify_socket_security env).1 <;>
    simp [send_event, hv, h1, truthyStr]

/-- Witness for C10: a 0600-mode owned token file containing only spaces
and a newline is treated as absent by `send_event` under `envGood`'s
socket. -/
theorem whitespace_token_is_absent_witness :
    read_auth_token envSpaceToken = Except.ok (some "") ∧
    send_event envSpaceToken (Transport.ok RecvOutcome.err)
      (permissionState permReqData none 1) = noAttempt :=
  whitespace_token_is_absent envSpaceToken (Transport.ok RecvOutcome.err)
    (permissionState permReqData none 1) { st_uid := 501, st_mode := 0o100600 }
    "  \n" rfl rfl rfl (by decide) rfl (by decide)

/-- Evaluation of the code at C3's failing input: gates pass, a request
record is sent, and the authority replies with bytes that are not valid
UTF-8 — `response.decode()` at line 124 raises `UnicodeDecodeError`, which
the `except (socket.error, OSError, json.JSONDecodeError)` of line 129
does not catch, so `send_event` raises to its caller (the close of line
122 has already run) and the process exits non-zero.  The remaining halves
of the claim do hold and are proved alongside: a failed verification or a
falsy (returned) token yields `None` with no connect attempt, and —
whenever the token read itself returns — every caught transport error:
connect refused, send failure, recv timeout/error, empty reply, reply that
decodes but does not parse, surfaces as a returned `None` with nothing
raised. -/
theorem send_event_raises_on_undecodable_reply :
    (send_event envGood
      (Transport.ok (RecvOutcome.bytes ReplyBytes.undecodable))
      (permissionState permReqData none 1)).raised =
      some PyExc.unicodeDecodeError
    ∧ (send_event envGood
        (Transport.ok (RecvOutcome.bytes ReplyBytes.undecodable))
        (permissionState permReqData none 1)).closeCount = 1
    ∧ (main (some permReqData) envGood
        (Transport.ok (RecvOutcome.bytes ReplyBytes.undecodable))
        none 1).crashed = true
    ∧ (main (some permReqData) envGood
        (Transport.ok (RecvOutcome.bytes ReplyBytes.undecodable))
        none 1).exitCode = 1
    ∧ (∀ (env : Env) (tr : Transport) (st : StateRec),
        ((verify_socket_security env).1 = false →
          send_event env tr st = noAttempt)
        ∧ (∀ t, read_auth_token env = Except.ok t → truthyStr t = false →
          send_event env tr st = noAttempt)
        ∧ (∀ t, read_auth_token env = Except.ok t →
          (tr = Transport.connectFail ∨ tr = Transport.sendFail ∨
            tr = Transport.ok RecvOutcome.err ∨
            tr = Transport.ok (RecvOutcome.bytes ReplyBytes.empty) ∨
            tr = Transport.ok (RecvOutcome.bytes ReplyBytes.invalid)) →
          (send_event env tr st).response = none ∧
          (send_event env tr st).raised = none)) := by
  refine ⟨rfl, by decide, by decide, by decide,
    fun env tr st => ⟨?_, ?_, ?_⟩⟩
  · intro h
    simp [send_event, h]
  · intro t hr htt
    cases hv : (verify_socket_security env).1 <;>
      simp [send_event, hv, hr, htt]
  · intro t hr
    rintro (rfl | rfl | rfl | rfl | rfl) <;>
      cases hv : (verify_socket_security env).1 <;>
      cases htt : truthyStr t <;>
      by_cases hw : st.status = some "waiting_for_approval" <;>
      simp [send_event, hv, hr, htt, hw, noAttempt]

/-- C4: assuming the security gates pass, `send_event` calls `recv` (once)
exactly when the record's status is `waiting_for_approval`; a recv
timeout/error on a request returns `None`; a fire-and-forget record never
triggers a `recv` (on any transport outcome) and, when the send completes,
the socket is closed immediately; the fixed timeout constant is 300
seconds. -/
theorem send_event_await_iff_request (env : Env) (tr : Transport)
    (st : StateRec) (ro : RecvOutcome)
    (hv : (verify_socket_security env).1 = true)
    (ht : tokenOk (read_auth_token env) = true) :
    (st.status ≠ some "waiting_for_approval" →
      (send_event env tr st).recvCount = 0)
    ∧ (tr = Transport.ok ro →
      ((send_event env tr st).recvCount = 1 ↔
        st.status = some "waiting_for_approval"))
    ∧ (tr = Transport.ok RecvOutcome.err →
      st.status = some "waiting_for_approval" →
      (send_event env tr st).response = none)
    ∧ (tr = Transport.ok ro → st.status ≠ some "waiting_for_approval" →
      (send_event env tr st).sendCount = 1 ∧
      (send_event env tr st).closeCount = 1)
    ∧ TIMEOUT_SECONDS = 300 := by
  rcases hr : read_auth_token env with e | t
  · rw [hr] at ht
    simp [tokenOk] at ht
  · rw [hr] at ht
    simp only [tokenOk] at ht
    refine ⟨?_, ?_, ?_, ?_, rfl⟩
    · intro hw
      cases tr with
      | connectFail => simp [send_event, hv, hr, ht]
      | sendFail => simp [send_event, hv, hr, ht]
      | ok ro' => cases ro' with
        | err => simp [send_event, hv, hr, ht, hw]
        | bytes b => cases b <;> simp [send_event, hv, hr, ht, hw]
    · rintro rfl
      by_cases hw : st.status = some "waiting_for_approval"
      · cases ro with
        | err => simp [send_event, hv, hr, ht, hw]
        | bytes b => cases b <;> simp [send_event, hv, hr, ht, hw]
      · simp [send_event, hv, hr, ht, hw]
    · rintro rfl hw
      simp [send_event, hv, hr, ht, hw]
    · rintro rfl hw
      simp [send_event, hv, hr, ht, hw]

/-- Witness for C4: under `envGood`, a request record does one recv, and a
fire-and-forget record (status `processing`) does none and closes. -/
theorem send_event_await_iff_request_witness :
    (send_event envGood (Transport.ok RecvOutcome.err)
      (permissionState permReqData none 1)).recvCount = 1 :=
  ((send_event_await_iff_request envGood (Transport.ok RecvOutcome.err)
      (permissionState permReqData none 1) RecvOutcome.err
      (by decide) (by decide)).2.1 rfl).mpr rfl

/-- Counterexample to C9 as stated: with all gates passing and the recv
raising (e.g. the 300s timeout expiring), a connection was opened but no
`sock.close()` executes on that exit path of `send_event`. -/
theorem send_event_close_cex :
    (send_event envGood (Transport.ok RecvOutcome.err)
      (permissionState permReqData none 1)).connected = true ∧
    (send_event envGood (Transport.ok RecvOutcome.err)
      (permissionState permReqData none 1)).closeCount = 0 := by decide

/-- C9 (amended): `send_event` attempts at most one connection and runs
`sock.close()` at most once; the close executes exactly on the paths where
the send (and, for a request record, the recv) completes without raising;
on the error paths after a connection is opened (send failure, or recv
error/timeout on a request) the function returns without an explicit
close. -/
theorem send_event_connection_discipline (env : Env) (tr : Transport)
    (st : StateRec) :
    (send_event env tr st).connectCount ≤ 1
    ∧ ((send_event env tr st).closeCount = 0 ∨
        (send_event env tr st).closeCount = 1)
    ∧ (∀ ro, tr = Transport.ok ro →
        st.status ≠ some "waiting_for_approval" →
        (send_event env tr st).connected = true →
        (send_event env tr st).closeCount = 1)
    ∧ (∀ b, tr = Transport.ok (RecvOutcome.bytes b) →
        (send_event env tr st).connected = true →
        (send_event env tr st).closeCount = 1)
    ∧ ((tr = Transport.connectFail ∨ tr = Transport.sendFail ∨
        (tr = Transport.ok RecvOutcome.err ∧
          st.status = some "waiting_for_approval")) →
        (send_event env tr st).closeCount = 0) := by
  refine ⟨?_, ?_, ?_, ?_, ?_⟩
  · cases hv : (verify_socket_security env).1
    · simp [send_event, hv, noAttempt]
    · rcases hr : read_auth_token env with e | t
      · simp [send_event, hv, hr, noAttempt]
      · cases htt : truthyStr t
        · simp [send_event, hv, hr, htt, noAttempt]
        · by_cases hw : st.status = some "waiting_for_approval" <;>
            rcases tr with _ | _ | (_ | (_ | _ | _ | v)) <;>
            simp [send_event, hv, hr, htt, hw]
  · cases hv : (verify_socket_security env).1
    · simp [send_event, hv, noAttempt]
    · rcases hr : read_auth_token env with e | t
      · simp [send_event, hv, hr, noAttempt]
      · cases htt : truthyStr t
        · simp [send_event, hv, hr, htt, noAttempt]
        · by_cases hw : st.status = some "waiting_for_approval" <;>
            rcases tr with _ | _ | (_ | (_ | _ | _ | v)) <;>
            simp [send_event, hv, hr, htt, hw]
  · rintro ro rfl hw hc
    cases hv : (verify_socket_security env).1
    · simp [send_event, hv, noAttempt] at hc
    · rcases hr : read_auth_token env with e | t
      · simp [send_event, hv, hr, noAttempt] at hc
      · cases htt : truthyStr t
        · simp [send_event, hv, hr, htt, noAttempt] at hc
        · simp [send_event, hv, hr, htt, hw]
  · rintro b rfl hc
    cases hv : (verify_socket_security env).1
    · simp [send_event, hv, noAttempt] at hc
    · rcases hr : read_auth_token env with e | t
      · simp [send_event, hv, hr, noAttempt] at hc
      · cases htt : truthyStr t
        · simp [send_event, hv, hr, htt, noAttempt] at hc
        · by_cases hw : st.status = some "waiting_for_approval"
          · cases b <;> simp [send_event, hv, hr, htt, hw]
          · simp [send_event, hv, hr, htt, hw]
  · rintro (rfl | rfl | ⟨rfl, hw⟩)
    · cases hv : (verify_socket_security env).1
      · simp [send_event, hv, noAttempt]
      · rcases hr : read_auth_token env with e | t
        · simp [send_event, hv, hr, noAttempt]
        · cases htt : truthyStr t <;>
            simp [send_event, hv, hr, htt, noAttempt]
    · cases hv : (verify_socket_security env).1
      · simp [send_event, hv, noAttempt]
      · rcases hr : read_auth_token env with e | t
        · simp [send_event, hv, hr, noAttempt]
        · cases htt : truthyStr t <;>
            simp [send_event, hv, hr, htt, noAttempt]
    · cases hv : (verify_socket_security env).1
      · simp [send_event, hv, noAttempt]
      · rcases hr : read_auth_token env with e | t
        · simp [send_event, hv, hr, noAttempt]
        · cases htt : truthyStr t <;>
            simp [send_event, hv, hr, htt, hw, noAttempt]

/-- Witness for C9 (amended): a completed fire-and-forget send under
`envGood` closes the socket exactly once. -/
theorem send_event_connection_discipline_witness :
    (send_event envGood (Transport.ok RecvOutcome.err)
      (toolState permReqData none 1 "processing")).closeCount = 1 :=
  (send_event_connection_discipline envGood (Transport.ok RecvOutcome.err)
      (toolState permReqData none 1 "processing")).2.2.1
    RecvOutcome.err rfl (by decide) (by decide)

/-- C1: the decision handling for a `PermissionRequest` reply: `allow`
prints the allow directive (whose constructor carries no message/reason
field), `deny` with a non-empty reason prints a deny directive carrying
that reason as its message, `deny` with a missing or empty reason defaults
the message to "Denied by user via ClaudeIsland", `ask` and the absence of
a reply print nothing; and in `main`, whenever the `send_event` call
returns (raises nothing) and the handling yields an output `o`, the
process prints exactly `o` and exits 0. -/
theorem render_decision_spec (r : Option String) (e : Bool) (x : String)
    (hx : x ≠ "") :
    render (some (PyJson.obj (some "allow") r e)) =
      RenderResult.out (some CtrlOutput.allow)
    ∧ render (some (PyJson.obj (some "deny") (some x) e)) =
      RenderResult.out (some (CtrlOutput.deny x))
    ∧ render (some (PyJson.obj (some "deny") none e)) =
      RenderResult.out (some (CtrlOutput.deny "Denied by user via ClaudeIsland"))
    ∧ render (some (PyJson.obj (some "deny") (some "") e)) =
      RenderResult.out (some (CtrlOutput.deny "Denied by user via ClaudeIsland"))
    ∧ render (some (PyJson.obj (some "ask") r e)) = RenderResult.out none
    ∧ render none = RenderResult.out none
    ∧ (∀ (env : Env) (tr : Transport) (data : HookData) (tty : Option String)
        (ppid : Nat) (o : Option CtrlOutput),
        data.hook_event_name = some "PermissionRequest" →
        (send_event env tr (permissionState data tty ppid)).raised = none →
        render (send_event env tr (permissionState data tty ppid)).response =
          RenderResult.out o →
        (main (some data) env tr tty ppid).exitCode = 0 ∧
        (main (some data) env tr tty ppid).stdout = o) := by
  refine ⟨rfl, ?_, rfl, rfl, rfl, rfl, ?_⟩
  · simp [render, pyDictTruthy, hx]
  · intro env tr data tty ppid o hev hraise hren
    simp [main, hev, hraise, hren]

/-- Witness for C1: a deny reply with reason "x" renders a deny directive
with message "x". -/
theorem render_decision_spec_witness :
    render (some (PyJson.obj (some "deny") (some "x") false)) =
      RenderResult.out (some (CtrlOutput.deny "x")) :=
  (render_decision_spec none false "x" (by decide)).2.1

/-- Evaluation of the code at C2's failing input: stdin is the well-formed
object `{"hook_event_name": "PermissionRequest"}`, all gates pass, and the
authority replies with the JSON string `"allow"` — a truthy non-object —
so `response.get` raises an uncaught `AttributeError` in `main` and the
process exits non-zero even though the input was well-formed; the parse
half of the claim does hold: unparseable stdin exits 1 having called
`send_event` zero times. -/
theorem nonobject_reply_crashes :
    (main (some permReqData) envGood
      (Transport.ok (RecvOutcome.bytes (ReplyBytes.json (PyJson.nonObj true))))
      none 1).crashed = true ∧
    (main (some permReqData) envGood
      (Transport.ok (RecvOutcome.bytes (ReplyBytes.json (PyJson.nonObj true))))
      none 1).exitCode = 1 ∧
    (∀ (env : Env) (tr : Transport) (tty : Option String) (ppid : Nat),
      main none env tr tty ppid =
        { exitCode := 1, crashed := false, stdout := none,
          sentState := none, sendEff := none }) := by
  refine ⟨by decide, by decide, fun env tr tty ppid => rfl⟩

/-- C8: on the stdin payload
`{"hook_event_name":"Notification","notification_type":"permission_prompt"}`,
`main` exits 0, prints nothing, sends no record, and never calls
`send_event` (so no connection is attempted), in every environment and for
every transport script. -/
theorem suppressed_notification_silent (env : Env) (tr : Transport)
    (tty : Option String) (ppid : Nat) :
    main (some suppressedData) env tr tty ppid =
      { exitCode := 0, crashed := false, stdout := none,
        sentState := none, sendEff := none } := rfl

/-- Counterexample to C7 as stated: the `permission_prompt` notification is
a parseable notification that produces and sends no event record at all
(it is suppressed), so not every parseable notification yields a record. -/
theorem suppressed_notification_drops_record :
    suppressedData.hook_event_name = some "Notification" ∧
    (main (some suppressedData) envGood (Transport.ok RecvOutcome.err)
      none 1).sentState = none ∧
    (main (some suppressedData) envGood (Transport.ok RecvOutcome.err)
      none 1).sendEff = none := by decide

/-- C7 (amended): for every parseable notification other than a
`Notification` with subtype `permission_prompt` (which is suppressed and
sends nothing), `main` sends exactly one record carrying a status; that
status is `waiting_for_approval` precisely when the event kind is
`PermissionRequest` (the sole request kind, all others fire-and-forget);
and any event name outside the recognized enumeration still yields a
record with the catch-all status `"unknown"`. -/
theorem classifier_total_mapping (data : HookData) (env : Env)
    (tr : Transport) (tty : Option String) (ppid : Nat)
    (hns : ¬(data.hook_event_name.getD "" = "Notification" ∧
      data.notification_type = some "permission_prompt")) :
    (∃ st, (main (some data) env tr tty ppid).sentState = some st ∧
      st.status.isSome = true ∧
      (st.status = some "waiting_for_approval" ↔
        data.hook_event_name.getD "" = "PermissionRequest")) ∧
    (data.hook_event_name.getD "" ∉ knownEvents →
      ∃ st, (main (some data) env tr tty ppid).sentState = some st ∧
        st.status = some "unknown") := by
  by_cases h1 : data.hook_event_name.getD "" = "UserPromptSubmit"
  · refine ⟨⟨{ baseState data tty ppid with status := some "processing" },
      ?_, rfl, ?_⟩, fun hk => absurd (by rw [h1]; decide) hk⟩
    · simp [main, h1, fireAndForget]
    · simp [h1]
  by_cases h2 : data.hook_event_name.getD "" = "PreToolUse"
  · refine ⟨⟨toolState data tty ppid "running_tool",
      ?_, rfl, ?_⟩, fun hk => absurd (by rw [h2]; decide) hk⟩
    · simp [main, h1, h2, fireAndForget]
    · simp [toolState, baseState, h2]
  by_cases h3 : data.hook_event_name.getD "" = "PostToolUse"
  · refine ⟨⟨toolState data tty ppid "processing",
      ?_, rfl, ?_⟩, fun hk => absurd (by rw [h3]; decide) hk⟩
    · simp [main, h1, h2, h3, fireAndForget]
    · simp [toolState, baseState, h3]
  by_cases h4 : data.hook_event_name.getD "" = "PermissionRequest"
  · refine ⟨⟨permissionState data tty ppid,
      ?_, rfl, ?_⟩, fun hk => absurd (by rw [h4]; decide) hk⟩
    · cases hrs : (send_event env tr
          (permissionState data tty ppid)).raised.isSome with
      | true => simp [main, h1, h2, h3, h4, hrs]
      | false =>
        cases hr : render (send_event env tr
            (permissionState data tty ppid)).response with
        | out o => simp [main, h1, h2, h3, h4, hrs, hr]
        | crash => simp [main, h1, h2, h3, h4, hrs, hr]
    · simp [permissionState, baseState, h4]
  by_cases h5 : data.hook_event_name.getD "" = "Notification"
  · have hnt : ¬ data.notification_type = some "permission_prompt" :=
      fun hc => hns ⟨h5, hc⟩
    refine ⟨⟨notificationState data tty ppid,
      ?_, ?_, ?_⟩, fun hk => absurd (by rw [h5]; decide) hk⟩
    · simp [main, h1, h2, h3, h4, h5, hnt, fireAndForget]
    · by_cases hi : data.notification_type = some "idle_prompt" <;>
        simp [notificationState, baseState, hi]
    · by_cases hi : data.notification_type = some "idle_prompt" <;>
        simp [notificationState, baseState, hi, h5]
  by_cases h6 : data.hook_event_name.getD "" = "Stop"
  · refine ⟨⟨{ baseState data tty ppid with status := some "waiting_for_input" },
      ?_, rfl, ?_⟩, fun hk => absurd (by rw [h6]; decide) hk⟩
    · simp [main, h1, h2, h3, h4, h5, h6, fireAndForget]
    · simp [h6]
  by_cases h7 : data.hook_event_name.getD "" = "SubagentStop"
  · refine ⟨⟨{ baseState data tty ppid with status := some "waiting_for_input" },
      ?_, rfl, ?_⟩, fun hk => absurd (by rw [h7]; decide) hk⟩
    · simp [main, h1, h2, h3, h4, h5, h6, h7, fireAndForget]
    · simp [h7]
  by_cases h8 : data.hook_event_name.getD "" = "SessionStart"
  · refine ⟨⟨{ baseState data tty ppid with status := some "waiting_for_input" },
      ?_, rfl, ?_⟩, fun hk => absurd (by rw [h8]; decide) hk⟩
    · simp [main, h1, h2, h3, h4, h5, h6, h7, h8, fireAndForget]
    · simp [h8]
  by_cases h9 : data.hook_event_name.getD "" = "SessionEnd"
  · refine ⟨⟨{ baseState data tty ppid with status := some "ended" },
      ?_, rfl, ?_⟩, fun hk => absurd (by rw [h9]; decide) hk⟩
    · simp [main, h1, h2, h3, h4, h5, h6, h7, h8, h9, fireAndForget]
    · simp [h9]
  by_cases h10 : data.hook_event_name.getD "" = "PreCompact"
  · refine ⟨⟨{ baseState data tty ppid with status := some "compacting" },
      ?_, rfl, ?_⟩, fun hk => absurd (by rw [h10]; decide) hk⟩
    · simp [main, h1, h2, h3, h4, h5, h6, h7, h8, h9, h10, fireAndForget]
    · simp [h10]
  · have hsend : (main (some data) env tr tty ppid).sentState =
        some { baseState data tty ppid with status := some "unknown" } := by
      simp [main, h1, h2, h3, h4, h5, h6, h7, h8, h9, h10, fireAndForget]
    exact ⟨⟨{ baseState data tty ppid with status := some "unknown" },
      hsend, rfl, by simp [h4]⟩,
      fun _ => ⟨{ baseState data tty ppid with status := some "unknown" },
        hsend, rfl⟩⟩

/-- Witness for C7 (amended): an unrecognized event name still yields a
sent record with status `"unknown"`. -/
theorem classifier_total_mapping_witness :
    ∃ st, (main (some bogusData) envGood (Transport.ok RecvOutcome.err)
      none 1).sentState = some st ∧ st.status = some "unknown" :=
  (classifier_total_mapping bogusData envGood (Transport.ok RecvOutcome.err)
    none 1 (by decide)).2 (by decide)

end ClaudeIsland
